import Mathlib

/-!
Verification of `chs-compliancepolicygenerator` (`src/main.py`) against its
natural-language specification.

The program is a single linear pipeline, `CompliancePolicyGenerator.run`:
`load_config` (open + `yaml.safe_load`), `validate_config` (shallow shape
check), `load_template` (Jinja2 template at `templates/<platform>/<standard>.j2`),
`generate_script` (render + write output file).  We embed it shallowly:

* YAML values are the inductive `Yaml` (mapping / sequence / scalars / null;
  `yaml.safe_load` of an empty document yields Python `None`, i.e. `Yaml.null`).
* A file on disk is a `FileState`: absent (opening raises `FileNotFoundError`),
  unreadable (opening raises `PermissionError`), or readable with a content
  string.
* The external YAML parser and the external Jinja2 renderer are parameters
  (`safeLoad : String → Except String Yaml`,
  `render : String → Yaml → Except String String`); the pipeline's own code is
  translated concretely.
* Python exceptions are the inductive `PyExc`; a stage returns its log lines
  and an `Except PyExc` result; `run` converts any error into exit status 1,
  mirroring the `try/except/sys.exit(1)` of the source.
-/

namespace CPG

/-- The value model of `yaml.safe_load`: mappings, sequences and scalars.
`null` is Python `None` (the parse of an empty YAML document). -/
inductive Yaml where
  | null
  | bool (b : Bool)
  | int (n : Int)
  | str (s : String)
  | sequence (items : List Yaml)
  | mapping (entries : List (String × Yaml))

/-- `isinstance(config, dict)` of the source. -/
def Yaml.isMapping : Yaml → Bool
  | .mapping _ => true
  | _ => false

/-- State of one path on disk.  `absent`: `open` raises `FileNotFoundError`
(and Jinja2 raises `TemplateNotFound`); `unreadable`: the file exists but
`open` raises `PermissionError`; `readable c`: reading yields `c`. -/
inductive FileState where
  | absent
  | unreadable
  | readable (content : String)
deriving DecidableEq, Repr

/-- The Python exceptions the pipeline can surface, named after the source's
exception classes and the spec's error taxonomy. -/
inductive PyExc where
  | fileNotFoundError
  | permissionError
  | yamlError (msg : String)
  | valueError (msg : String)
  | templateNotFound (path : String)
  | templateLoadError (msg : String)
  | renderError (msg : String)
  | outputWriteError
deriving DecidableEq, Repr

inductive LogLevel where
  | info
  | warning
  | error
deriving DecidableEq, Repr

structure LogEntry where
  level : LogLevel
  msg : String
deriving DecidableEq, Repr

/-- `CompliancePolicyGenerator.load_config` (src/main.py:36-49): opens
`self.config_file` and runs `yaml.safe_load`.  `FileNotFoundError` is caught,
logged and re-raised; `yaml.YAMLError` is caught, logged and re-raised; a
`PermissionError` from `open` matches neither `except` clause and propagates
without a log line.  Returns the emitted log lines and the result. -/
def load_config (configFile : FileState) (safeLoad : String → Except String Yaml) :
    List LogEntry × Except PyExc Yaml :=
  match configFile with
  | .absent =>
      ([⟨.error, "Configuration file not found"⟩], .error .fileNotFoundError)
  | .unreadable =>
      ([], .error .permissionError)
  | .readable content =>
      match safeLoad content with
      | .error e =>
          ([⟨.error, "Error parsing YAML configuration: " ++ e⟩], .error (.yamlError e))
      | .ok v =>
          ([⟨.info, "Configuration loaded"⟩], .ok v)

/-- `'policies' in self.config` for a dict with string keys. -/
def hasKey (entries : List (String × Yaml)) (k : String) : Bool :=
  entries.any (fun kv => kv.1 == k)

/-- `CompliancePolicyGenerator.validate_config` (src/main.py:51-61):
raises `ValueError("Invalid configuration format")` when the loaded value is
not a dict; otherwise warns (only) when the dict has no `policies` key. -/
def validate_config (config : Yaml) : List LogEntry × Except PyExc Unit :=
  match config with
  | .mapping entries =>
      if hasKey entries "policies" then
        ([], .ok ())
      else
        ([⟨.warning, "No 'policies' key found in the configuration.  Some rules may be missed"⟩],
         .ok ())
  | _ =>
      ([⟨.error, "Invalid configuration format. Expected a dictionary."⟩],
       .error (.valueError "Invalid configuration format"))

/-- The template path composed in `load_template` (src/main.py:67):
`f"templates/{self.platform}/{self.compliance_standard}.j2"`. -/
def templatePath (platform compliance_standard : String) : String :=
  "templates/" ++ platform ++ "/" ++ compliance_standard ++ ".j2"

/-- `CompliancePolicyGenerator.load_template` (src/main.py:63-77): resolves
the template path and loads the template source through Jinja2's
`FileSystemLoader`.  A missing file is `TemplateNotFound` (caught, logged,
re-raised); any other load failure is caught by the broad `except Exception`,
logged and re-raised.  `fs` is the state of the filesystem at each path. -/
def load_template (fs : String → FileState) (platform compliance_standard : String) :
    List LogEntry × Except PyExc String :=
  let path := templatePath platform compliance_standard
  match fs path with
  | .absent =>
      ([⟨.error, "Template not found: " ++ path⟩], .error (.templateNotFound path))
  | .unreadable =>
      ([⟨.error, "Error loading template"⟩], .error (.templateLoadError path))
  | .readable src =>
      ([⟨.info, "Template loaded from " ++ path⟩], .ok src)

/-- `CompliancePolicyGenerator.generate_script` (src/main.py:79-90): renders
the template against `config=self.config`, then `open(self.output_file, 'w')`
and writes the whole rendered text.  A render failure happens before the
output file is opened, so the output path keeps its previous state; when the
destination is not writable, `open(..., 'w')` raises before truncating and the
previous state is also kept; on success the file holds exactly the rendered
text.  Returns (new state of the output path, logs, result). -/
def generate_script (render : String → Yaml → Except String String)
    (template : String) (config : Yaml)
    (outputPrev : FileState) (outputWritable : Bool) :
    FileState × List LogEntry × Except PyExc Unit :=
  match render template config with
  | .error e =>
      (outputPrev, [⟨.error, "Error generating script: " ++ e⟩], .error (.renderError e))
  | .ok rendered =>
      if outputWritable then
        (.readable rendered, [⟨.info, "Script generated successfully"⟩], .ok ())
      else
        (outputPrev, [⟨.error, "Error generating script"⟩], .error .outputWriteError)

/-- The four pipeline stages of `run` (src/main.py:96-100), in source order. -/
inductive Stage where
  | loadConfig
  | validateConfig
  | loadTemplate
  | generateScript
deriving DecidableEq, Repr

/-- The inputs of one invocation: the constructor arguments of
`CompliancePolicyGenerator` together with the relevant disk state. -/
structure World where
  compliance_standard : String
  platform : String
  configFile : FileState
  templateFS : String → FileState
  outputPrev : FileState
  outputWritable : Bool

/-- Observable outcome of `run`: the process exit status, the stages that
executed, whether the output file was written, the final state of the output
path, and the exception (if any) that aborted the pipeline.  (Each stage's
log lines are modelled in the stage functions themselves; `run` additionally
logs "Script generation failed" before exiting on any exception.) -/
structure RunResult where
  exitCode : Nat
  stages : List Stage
  written : Bool
  output : FileState
  err : Option PyExc

/-- `CompliancePolicyGenerator.run` (src/main.py:92-103): the four stages in
sequence inside one `try`; the first exception aborts the remaining stages,
is logged, and becomes `sys.exit(1)`; completing all four stages lets `main`
return, so the process exits 0. -/
def run (safeLoad : String → Except String Yaml)
    (render : String → Yaml → Except String String) (w : World) : RunResult :=
  match (load_config w.configFile safeLoad).2 with
  | .error e => ⟨1, [.loadConfig], false, w.outputPrev, some e⟩
  | .ok config =>
      match (validate_config config).2 with
      | .error e => ⟨1, [.loadConfig, .validateConfig], false, w.outputPrev, some e⟩
      | .ok _ =>
          match (load_template w.templateFS w.platform w.compliance_standard).2 with
          | .error e =>
              ⟨1, [.loadConfig, .validateConfig, .loadTemplate], false, w.outputPrev, some e⟩
          | .ok tmpl =>
              match (generate_script render tmpl config w.outputPrev w.outputWritable).2.2 with
              | .error e =>
                  ⟨1, [.loadConfig, .validateConfig, .loadTemplate, .generateScript], false,
                   (generate_script render tmpl config w.outputPrev w.outputWritable).1, some e⟩
              | .ok _ =>
                  ⟨0, [.loadConfig, .validateConfig, .loadTemplate, .generateScript], true,
                   (generate_script render tmpl config w.outputPrev w.outputWritable).1, none⟩

/-- A concrete stand-in parser used in witnesses: parses only the empty
document, to Python `None` (`yaml.safe_load("")` is `None`). -/
def emptyDocLoad : String → Except String Yaml :=
  fun s => if s == "" then .ok .null else .error "parse error"

/-- A concrete stand-in parser used in witnesses: every content parses to
`None`. -/
def constNullLoad : String → Except String Yaml :=
  fun _ => .ok .null

/-- Dict lookup with string keys, used to model template field access
(`config.policies`, `policy.services`). -/
def lookupKey : List (String × Yaml) → String → Option Yaml
  | [], _ => none
  | (k', v) :: rest, k => if k' == k then some v else lookupKey rest k

/-- Scenario A's configuration file text (the example `config.yaml` of the
source, reduced to one policy with one service). -/
def scenarioConfigText : String :=
  "policies:\n  - name: Disable cups\n    services:\n      - cups\n"

/-- The parse of `scenarioConfigText`:
`{policies: [{name: "Disable cups", services: ["cups"]}]}`. -/
def scenarioConfig : Yaml :=
  .mapping [("policies", .sequence
    [.mapping [("name", .str "Disable cups"), ("services", .sequence [.str "cups"])]])]

/-- A concrete parser for Scenario A: parses exactly the scenario document. -/
def scenarioSafeLoad : String → Except String Yaml :=
  fun s => if s == scenarioConfigText then .ok scenarioConfig else .error "parse error"

/-- Scenario A's template source: loops over `config.policies` and over each
policy's `services`, emitting one `systemctl disable <service>` line per
service. -/
def scenarioTemplateText : String :=
  "\x7b% for policy in config.policies %\x7d\x7b% for service in policy.services %\x7dsystemctl disable \x7b\x7b service \x7d\x7d\n\x7b% endfor %\x7d\x7b% endfor %\x7d"

/-- One `systemctl disable {{ service }}` line of the scenario template. -/
def scenarioServiceLine : Yaml → String
  | .str s => "systemctl disable " ++ s ++ "\n"
  | _ => ""

/-- The inner loop of the scenario template over one policy's `services`. -/
def scenarioPolicyLines : Yaml → String
  | .mapping es =>
      match lookupKey es "services" with
      | some (.sequence svcs) => String.join (svcs.map scenarioServiceLine)
      | _ => ""
  | _ => ""

/-- Modelled from the spec (Scenario A): the Jinja2 evaluation of the
scenario template — a loop over `config.policies` emitting
`systemctl disable {{ service }}` per service — against the configuration
passed as the `config` binding.  The Jinja2 engine itself is external to the
repository; this function gives the scenario template's documented
semantics. -/
def scenarioRender : String → Yaml → Except String String :=
  fun _ config =>
    match config with
    | .mapping es =>
        match lookupKey es "policies" with
        | some (.sequence ps) => .ok (String.join (ps.map scenarioPolicyLines))
        | _ => .error "render error"
    | _ => .error "render error"

/-- Splits character data into lines at `'\n'` (the text before each newline,
plus the trailing segment), used to state "contains exactly one line ...". -/
def splitLinesAux : List Char → List Char → List String
  | [], acc => [String.mk acc.reverse]
  | c :: cs, acc =>
      if c = '\n' then String.mk acc.reverse :: splitLinesAux cs []
      else splitLinesAux cs (c :: acc)

/-- The lines of a string, split at `'\n'`. -/
def lines (s : String) : List String := splitLinesAux s.data []

/-- Scenario A's world: readable config, the template present at
`templates/linux/CIS.j2`, no pre-existing output file, writable output. -/
def scenarioWorld : World where
  compliance_standard := "CIS"
  platform := "linux"
  configFile := .readable scenarioConfigText
  templateFS := fun p =>
    if p == "templates/linux/CIS.j2" then .readable scenarioTemplateText else .absent
  outputPrev := .absent
  outputWritable := true

end CPG

/-! ## Theorems -/

/-- C1: `validate_config` raises `ValueError` (the spec's `ConfigShapeError`)
exactly when the top-level value is not a mapping: every mapping passes,
whatever its keys, and every sequence or scalar (or null) is rejected. -/
theorem CPG.validate_config_shape (c : CPG.Yaml) :
    (CPG.validate_config c).2 =
      (if c.isMapping then Except.ok ()
       else Except.error (CPG.PyExc.valueError "Invalid configuration format")) := by
  cases c with
  | mapping entries =>
      by_cases h : CPG.hasKey entries "policies" = true <;>
        simp [CPG.validate_config, CPG.Yaml.isMapping, h]
  | null => rfl
  | bool b => rfl
  | int n => rfl
  | str s => rfl
  | sequence items => rfl

/-- C5: when the top-level mapping has no `policies` key, `validate_config`
emits exactly one WARNING log line and succeeds, and (in any world whose
configuration loads to such a mapping) `run` goes on to execute the template
loading stage. -/
theorem CPG.validate_config_missing_policies
    (entries : List (String × CPG.Yaml))
    (h : CPG.hasKey entries "policies" = false) :
    CPG.validate_config (CPG.Yaml.mapping entries) =
      ([⟨CPG.LogLevel.warning,
         "No 'policies' key found in the configuration.  Some rules may be missed"⟩],
       Except.ok ())
    ∧ ∀ (safeLoad : String → Except String CPG.Yaml)
        (render : String → CPG.Yaml → Except String String) (w : CPG.World),
        (CPG.load_config w.configFile safeLoad).2 = Except.ok (CPG.Yaml.mapping entries) →
        CPG.Stage.loadTemplate ∈ (CPG.run safeLoad render w).stages := by
  constructor
  · simp [CPG.validate_config, h]
  · intro safeLoad render w hload
    unfold CPG.run
    rw [hload]
    simp only [CPG.validate_config, h, Bool.false_eq_true, if_false]
    cases hlt : (CPG.load_template w.templateFS w.platform w.compliance_standard).2 with
    | error e => simp
    | ok tmpl =>
        cases hgs : (CPG.generate_script render tmpl (CPG.Yaml.mapping entries)
            w.outputPrev w.outputWritable).2.2 with
        | error e => simp [hgs]
        | ok u => simp [hgs]

/-- Witness for C5 at the concrete empty mapping. -/
theorem CPG.validate_config_missing_policies_witness :
    CPG.validate_config (CPG.Yaml.mapping []) =
      ([⟨CPG.LogLevel.warning,
         "No 'policies' key found in the configuration.  Some rules may be missed"⟩],
       Except.ok ()) :=
  (CPG.validate_config_missing_policies [] (by decide)).1

/-- C10: a well-formed but empty configuration document parses to null
(`yaml.safe_load` of an empty document is Python `None`), `load_config`
succeeds with that null, and `validate_config` then raises
`ValueError("Invalid configuration format")` — its `ConfigShapeError`
condition — rather than merely warning: every log line it emits at null is
ERROR-level, none is a warning. -/
theorem CPG.empty_document_rejected
    (safeLoad : String → Except String CPG.Yaml)
    (h : safeLoad "" = Except.ok CPG.Yaml.null) :
    (CPG.load_config (CPG.FileState.readable "") safeLoad).2 = Except.ok CPG.Yaml.null
    ∧ (CPG.validate_config CPG.Yaml.null).2 =
        Except.error (CPG.PyExc.valueError "Invalid configuration format")
    ∧ ∀ l, l ∈ (CPG.validate_config CPG.Yaml.null).1 → l.level = CPG.LogLevel.error := by
  refine ⟨?_, rfl, ?_⟩
  · simp [CPG.load_config, h]
  · intro l hl
    simp [CPG.validate_config] at hl
    subst hl
    rfl

/-- Witness for C10 with the concrete parser `emptyDocLoad`. -/
theorem CPG.empty_document_rejected_witness :
    (CPG.load_config (CPG.FileState.readable "") CPG.emptyDocLoad).2 = Except.ok CPG.Yaml.null
    ∧ (CPG.validate_config CPG.Yaml.null).2 =
        Except.error (CPG.PyExc.valueError "Invalid configuration format")
    ∧ ∀ l, l ∈ (CPG.validate_config CPG.Yaml.null).1 → l.level = CPG.LogLevel.error :=
  CPG.empty_document_rejected CPG.emptyDocLoad rfl

/-- C6 counterexample: an existing configuration file the process may not
read raises `PermissionError`, which is not the `ConfigNotFound` condition
(`FileNotFoundError`); no "Configuration file not found" log line is emitted
for it.  The claim that every non-readable path yields `ConfigNotFound` is
therefore false at this input. -/
theorem CPG.load_config_permission_counterexample :
    (CPG.load_config CPG.FileState.unreadable CPG.constNullLoad).2 =
      Except.error CPG.PyExc.permissionError
    ∧ CPG.PyExc.permissionError ≠ CPG.PyExc.fileNotFoundError
    ∧ (CPG.load_config CPG.FileState.unreadable CPG.constNullLoad).1 = [] :=
  ⟨rfl, by decide, rfl⟩

/-- C6 (amended): `load_config` fails with `FileNotFoundError` (the spec's
`ConfigNotFound`) exactly when the path does not exist, with
`yamlError e` (the spec's `ConfigParseError`, carrying the parser diagnostic
`e`) exactly when the file is readable and the parser rejects its content,
and with `permissionError` — a distinct, still fatal condition — exactly when
the file exists but cannot be read. -/
theorem CPG.load_config_error_taxonomy
    (safeLoad : String → Except String CPG.Yaml) (st : CPG.FileState) :
    ((CPG.load_config st safeLoad).2 = Except.error CPG.PyExc.fileNotFoundError
        ↔ st = CPG.FileState.absent)
    ∧ (∀ e, (CPG.load_config st safeLoad).2 = Except.error (CPG.PyExc.yamlError e)
        ↔ ∃ c, st = CPG.FileState.readable c ∧ safeLoad c = Except.error e)
    ∧ ((CPG.load_config st safeLoad).2 = Except.error CPG.PyExc.permissionError
        ↔ st = CPG.FileState.unreadable) := by
  cases st with
  | absent => simp [CPG.load_config]
  | unreadable => simp [CPG.load_config]
  | readable c =>
      cases hc : safeLoad c with
      | error e => simp [CPG.load_config, hc]
      | ok v => simp [CPG.load_config, hc]

/-- String append acts as list append on the underlying character data. -/
theorem CPG.string_data_append (a b : String) : (a ++ b).data = a.data ++ b.data := rfl

/-- Splitting a character list at a separator that occurs in neither prefix:
the decomposition `a ++ '/' :: x` is unique among slash-free prefixes `a`. -/
theorem CPG.append_sep_inj (a : List Char) : ∀ (b x y : List Char),
    '/' ∉ a → '/' ∉ b → a ++ '/' :: x = b ++ '/' :: y → a = b ∧ x = y := by
  induction a with
  | nil =>
      intro b x y _ hb h
      cases b with
      | nil =>
          simp only [List.nil_append, List.cons.injEq] at h
          exact ⟨rfl, h.2⟩
      | cons c t =>
          simp only [List.nil_append, List.cons_append, List.cons.injEq] at h
          cases h.1
          exact absurd (List.mem_cons_self _ _) hb
  | cons c t ih =>
      intro b x y ha hb h
      cases b with
      | nil =>
          simp only [List.cons_append, List.nil_append, List.cons.injEq] at h
          cases h.1
          exact absurd (List.mem_cons_self _ _) ha
      | cons c' t' =>
          simp only [List.cons_append, List.cons.injEq] at h
          obtain ⟨rfl, h2⟩ := h
          have ha' : '/' ∉ t := fun hm => ha (List.mem_cons_of_mem _ hm)
          have hb' : '/' ∉ t' := fun hm => hb (List.mem_cons_of_mem _ hm)
          obtain ⟨rfl, rfl⟩ := ih t' x y ha' hb' h2
          exact ⟨rfl, rfl⟩

/-- C3 counterexample: the resolver concatenates its two opaque string inputs
with `/`, so two pairs that differ in both components can resolve to the same
path: `("a/b", "c")` and `("a", "b/c")` both give `templates/a/b/c.j2`.  The
claim that any two differing pairs resolve to different paths is false. -/
theorem CPG.templatePath_collision :
    CPG.templatePath "a/b" "c" = CPG.templatePath "a" "b/c"
    ∧ ("a/b" : String) ≠ "a" ∧ ("c" : String) ≠ "b/c" :=
  ⟨rfl, by decide, by decide⟩

/-- C3 (amended): the resolver is the pure function
`templates/<platform>/<standard>.j2` of the pair, and it is injective on
pairs whose platform component does not contain the path separator `/`:
under that proviso, changing either input changes the resolved path. -/
theorem CPG.templatePath_inj (p₁ s₁ p₂ s₂ : String)
    (hp₁ : '/' ∉ p₁.data) (hp₂ : '/' ∉ p₂.data)
    (h : CPG.templatePath p₁ s₁ = CPG.templatePath p₂ s₂) :
    p₁ = p₂ ∧ s₁ = s₂ := by
  have hslash : ("/" : String).data = ['/'] := rfl
  have hd := congrArg String.data h
  simp only [CPG.templatePath, CPG.string_data_append, List.append_assoc, hslash,
    List.singleton_append] at hd
  have hd' := List.append_cancel_left hd
  obtain ⟨hp, hs⟩ := CPG.append_sep_inj _ _ _ _ hp₁ hp₂ hd'
  have hs' := List.append_cancel_right hs
  exact ⟨String.ext hp, String.ext hs'⟩

/-- Witness for C3's amended injectivity at slash-free concrete inputs. -/
theorem CPG.templatePath_inj_witness : ("linux" : String) = "linux" ∧ ("CIS" : String) = "CIS" :=
  CPG.templatePath_inj "linux" "CIS" "linux" "CIS" (by decide) (by decide) rfl

/-- C2: `run` executes the four stages strictly in the source order
`load_config`, `validate_config`, `load_template`, `generate_script`: the
executed trace is always a prefix of that order; the process exits 1 exactly
when some stage raised (and then no later stage ran), and exits 0 exactly
when all four stages succeeded. -/
theorem CPG.run_stage_contract
    (safeLoad : String → Except String CPG.Yaml)
    (render : String → CPG.Yaml → Except String String) (w : CPG.World) :
    (CPG.run safeLoad render w).stages <+:
      [CPG.Stage.loadConfig, CPG.Stage.validateConfig,
       CPG.Stage.loadTemplate, CPG.Stage.generateScript]
    ∧ (CPG.run safeLoad render w).exitCode
        = (if (CPG.run safeLoad render w).err.isSome then 1 else 0)
    ∧ ((CPG.run safeLoad render w).err.isSome = true
        ∨ (CPG.run safeLoad render w).stages
            = [CPG.Stage.loadConfig, CPG.Stage.validateConfig,
               CPG.Stage.loadTemplate, CPG.Stage.generateScript]) := by
  cases hlc : (CPG.load_config w.configFile safeLoad).2 with
  | error e =>
      refine ⟨⟨[CPG.Stage.validateConfig, CPG.Stage.loadTemplate, CPG.Stage.generateScript], ?_⟩,
        ?_, Or.inl ?_⟩ <;> simp [CPG.run, hlc]
  | ok config =>
      cases hvc : (CPG.validate_config config).2 with
      | error e =>
          refine ⟨⟨[CPG.Stage.loadTemplate, CPG.Stage.generateScript], ?_⟩, ?_, Or.inl ?_⟩ <;>
            simp [CPG.run, hlc, hvc]
      | ok u =>
          cases hlt : (CPG.load_template w.templateFS w.platform w.compliance_standard).2 with
          | error e =>
              refine ⟨⟨[CPG.Stage.generateScript], ?_⟩, ?_, Or.inl ?_⟩ <;>
                simp [CPG.run, hlc, hvc, hlt]
          | ok tmpl =>
              cases hgs : (CPG.generate_script render tmpl config
                  w.outputPrev w.outputWritable).2.2 with
              | error e =>
                  refine ⟨⟨[], ?_⟩, ?_, Or.inl ?_⟩ <;> simp [CPG.run, hlc, hvc, hlt, hgs]
              | ok u =>
                  refine ⟨⟨[], ?_⟩, ?_, Or.inr ?_⟩ <;> simp [CPG.run, hlc, hvc, hlt, hgs]

/-- C4: when the run fails with any condition other than an output-write
failure — config missing/unreadable, parse error, shape error, template
missing/unloadable, or a render error — the output path is not touched: its
final state equals its state before the run, and nothing was written. -/
theorem CPG.no_output_on_prewrite_failure
    (safeLoad : String → Except String CPG.Yaml)
    (render : String → CPG.Yaml → Except String String) (w : CPG.World) (e : CPG.PyExc)
    (herr : (CPG.run safeLoad render w).err = some e)
    (hnw : e ≠ CPG.PyExc.outputWriteError) :
    (CPG.run safeLoad render w).output = w.outputPrev
    ∧ (CPG.run safeLoad render w).written = false := by
  cases hlc : (CPG.load_config w.configFile safeLoad).2 with
  | error e' => simp [CPG.run, hlc]
  | ok config =>
      cases hvc : (CPG.validate_config config).2 with
      | error e' => simp [CPG.run, hlc, hvc]
      | ok u =>
          cases hlt : (CPG.load_template w.templateFS w.platform w.compliance_standard).2 with
          | error e' => simp [CPG.run, hlc, hvc, hlt]
          | ok tmpl =>
              cases hgs : (CPG.generate_script render tmpl config
                  w.outputPrev w.outputWritable).2.2 with
              | ok u => simp [CPG.run, hlc, hvc, hlt, hgs] at herr
              | error e' =>
                  rcases hrd : render tmpl config with e'' | rendered
                  · simp [CPG.run, hlc, hvc, hlt, hgs, CPG.generate_script, hrd]
                  · cases hw : w.outputWritable with
                    | true => simp [CPG.generate_script, hrd, hw] at hgs
                    | false =>
                        simp [CPG.run, hlc, hvc, hlt, hgs, CPG.generate_script, hrd, hw]

/-- Witness for C4: a missing configuration file aborts the run and leaves
the pre-existing output file untouched. -/
theorem CPG.no_output_on_prewrite_failure_witness :
    (CPG.run CPG.constNullLoad CPG.scenarioRender
        { CPG.scenarioWorld with
            configFile := CPG.FileState.absent
            outputPrev := CPG.FileState.readable "old" }).output
      = CPG.FileState.readable "old"
    ∧ (CPG.run CPG.constNullLoad CPG.scenarioRender
        { CPG.scenarioWorld with
            configFile := CPG.FileState.absent
            outputPrev := CPG.FileState.readable "old" }).written = false :=
  CPG.no_output_on_prewrite_failure CPG.constNullLoad CPG.scenarioRender
    { CPG.scenarioWorld with
        configFile := CPG.FileState.absent
        outputPrev := CPG.FileState.readable "old" }
    CPG.PyExc.fileNotFoundError rfl (by decide)

/-- C8: on successful rendering, `generate_script` writes the entire rendered
text to the output path, replacing whatever file state was there before, so
the final file content equals exactly the render result, and it reports
success. -/
theorem CPG.generate_script_overwrites
    (render : String → CPG.Yaml → Except String String)
    (template : String) (config : CPG.Yaml) (prev : CPG.FileState) (t : String)
    (h : render template config = Except.ok t) :
    CPG.generate_script render template config prev true
      = (CPG.FileState.readable t,
         [⟨CPG.LogLevel.info, "Script generated successfully"⟩], Except.ok ()) := by
  simp [CPG.generate_script, h]

/-- Witness for C8: a render result `"new"` replaces a pre-existing output
file holding `"old"`. -/
theorem CPG.generate_script_overwrites_witness :
    CPG.generate_script (fun _ _ => Except.ok "new") "tmpl" CPG.Yaml.null
        (CPG.FileState.readable "old") true
      = (CPG.FileState.readable "new",
         [⟨CPG.LogLevel.info, "Script generated successfully"⟩], Except.ok ()) :=
  CPG.generate_script_overwrites (fun _ _ => Except.ok "new") "tmpl" CPG.Yaml.null
    (CPG.FileState.readable "old") "new" rfl

/-- C7: the pipeline is deterministic in its inputs.  Two runs that agree on
the compliance standard, the platform, the configuration file state, the
template filesystem, the parser and the renderer, each with a writable
output path, agree on whether an output file is produced, and when one is,
the produced files are byte-identical — whatever output file each run
started with. -/
theorem CPG.run_deterministic
    (safeLoad : String → Except String CPG.Yaml)
    (render : String → CPG.Yaml → Except String String) (w₁ w₂ : CPG.World)
    (hstd : w₁.compliance_standard = w₂.compliance_standard)
    (hplat : w₁.platform = w₂.platform)
    (hcfg : w₁.configFile = w₂.configFile)
    (htfs : w₁.templateFS = w₂.templateFS)
    (hwr₁ : w₁.outputWritable = true) (hwr₂ : w₂.outputWritable = true) :
    (CPG.run safeLoad render w₁).written = (CPG.run safeLoad render w₂).written
    ∧ ((CPG.run safeLoad render w₁).written = true →
        (CPG.run safeLoad render w₁).output = (CPG.run safeLoad render w₂).output) := by
  obtain ⟨std₁, plat₁, cfg₁, tfs₁, prev₁, wr₁⟩ := w₁
  obtain ⟨std₂, plat₂, cfg₂, tfs₂, prev₂, wr₂⟩ := w₂
  simp only at hstd hplat hcfg htfs hwr₁ hwr₂
  subst hstd hplat hcfg htfs hwr₁ hwr₂
  cases hlc : (CPG.load_config cfg₁ safeLoad).2 with
  | error e => simp [CPG.run, hlc]
  | ok config =>
      cases hvc : (CPG.validate_config config).2 with
      | error e => simp [CPG.run, hlc, hvc]
      | ok u =>
          cases hlt : (CPG.load_template tfs₁ plat₁ std₁).2 with
          | error e => simp [CPG.run, hlc, hvc, hlt]
          | ok tmpl =>
              rcases hrd : render tmpl config with e | rendered
              · simp [CPG.run, hlc, hvc, hlt, CPG.generate_script, hrd]
              · simp [CPG.run, hlc, hvc, hlt, CPG.generate_script, hrd]

/-- Witness for C7: two runs of Scenario A that start from different
pre-existing output files still produce the same output file. -/
theorem CPG.run_deterministic_witness :
    (CPG.run CPG.scenarioSafeLoad CPG.scenarioRender CPG.scenarioWorld).written
      = (CPG.run CPG.scenarioSafeLoad CPG.scenarioRender
          { CPG.scenarioWorld with outputPrev := CPG.FileState.readable "stale" }).written
    ∧ ((CPG.run CPG.scenarioSafeLoad CPG.scenarioRender CPG.scenarioWorld).written = true →
        (CPG.run CPG.scenarioSafeLoad CPG.scenarioRender CPG.scenarioWorld).output
          = (CPG.run CPG.scenarioSafeLoad CPG.scenarioRender
              { CPG.scenarioWorld with outputPrev := CPG.FileState.readable "stale" }).output) :=
  CPG.run_deterministic CPG.scenarioSafeLoad CPG.scenarioRender CPG.scenarioWorld
    { CPG.scenarioWorld with outputPrev := CPG.FileState.readable "stale" }
    rfl rfl rfl rfl rfl rfl

/-- C9 (Scenario A): for the configuration
`{policies: [{name: "Disable cups", services: ["cups"]}]}`, platform `linux`,
standard `CIS`, and the template that loops over `config.policies` emitting
`systemctl disable {{ service }}` per service, the pipeline succeeds and the
written output file contains exactly one line `systemctl disable cups`. -/
theorem CPG.scenarioA_one_line :
    (CPG.run CPG.scenarioSafeLoad CPG.scenarioRender CPG.scenarioWorld).output
      = CPG.FileState.readable "systemctl disable cups\n"
    ∧ (CPG.run CPG.scenarioSafeLoad CPG.scenarioRender CPG.scenarioWorld).exitCode = 0
    ∧ (CPG.lines "systemctl disable cups\n").count "systemctl disable cups" = 1 := by
  refine ⟨rfl, rfl, by decide⟩
